import Mathlib

/-!
Shallow embedding of the VoiceTranslation single-page application
(src/project-bolt-sb1-mq8yygbe/src/App.tsx).

The view state of the React component App is modelled as an explicit
record AppState holding the twelve useState slots plus the recognition
session reference (recognitionRef.current, modelled as an Option of its
configuration).  Each event handler and operation of the component is a
pure state-transition function; operations that talk to the network
additionally return the request they issue (or none), and the outcome of
the network round trip is passed in as an explicit FetchOutcome value.
URI encoding of the query text is a transport detail and is not modelled:
requests carry the raw text together with the langpair parameter string.
-/

/-- One segment of a platform speech-recognition result batch: the
transcript text together with the isFinal flag. -/
structure Segment where
  transcript : String
  isFinal : Bool
deriving DecidableEq, Repr

/-- Configuration of the speech-recognition session object
(recognitionRef.current in App.tsx, lines 102-105). -/
structure RecognitionConfig where
  continuous : Bool
  interimResults : Bool
  lang : String
deriving DecidableEq, Repr

/-- The view state of the App component: the useState slots declared at
App.tsx lines 82-93, plus recognitionRef (line 95), modelled as the
configuration of the session object when one was created. -/
structure AppState where
  isRecording : Bool
  originalText : String
  translatedText : String
  agentReply : String
  agentReplyTranslated : String
  inputLanguage : String
  outputLanguage : String
  isTranslating : Bool
  isTranslatingReply : Bool
  error : String
  interimText : String
  isSpeaking : Bool
  recognition : Option RecognitionConfig
deriving DecidableEq, Repr

/-- The initial values of the useState slots (App.tsx lines 82-95). -/
def initialState : AppState where
  isRecording := false
  originalText := ""
  translatedText := ""
  agentReply := ""
  agentReplyTranslated := ""
  inputLanguage := "th"
  outputLanguage := "en"
  isTranslating := false
  isTranslatingReply := false
  error := ""
  interimText := ""
  isSpeaking := false
  recognition := none

/-- The speechLanguageCodes lookup table (App.tsx lines 57-79). -/
def speechLanguageCodes : List (String × String) :=
  [("en", "en-US"), ("th", "th-TH"), ("es", "es-ES"), ("fr", "fr-FR"),
   ("de", "de-DE"), ("it", "it-IT"), ("pt", "pt-PT"), ("ru", "ru-RU"),
   ("ja", "ja-JP"), ("ko", "ko-KR"), ("zh", "zh-CN"), ("ar", "ar-SA"),
   ("hi", "hi-IN"), ("vi", "vi-VN"), ("nl", "nl-NL"), ("sv", "sv-SE"),
   ("da", "da-DK"), ("no", "no-NO"), ("fi", "fi-FI"), ("pl", "pl-PL"),
   ("tr", "tr-TR")]

/-- speechLanguageCodes[code] || dflt : the indexing-with-fallback idiom
used at App.tsx lines 105, 151 and 245. -/
def speechLangOrDefault (code dflt : String) : String :=
  match speechLanguageCodes.lookup code with
  | some locale => locale
  | none => dflt

/-- JavaScript blank test: the code guards each translation with
(!text.trim()), which holds exactly when every character of the text is
whitespace.  String.prototype.trim is modelled through this emptiness
test (the only use the code makes of it). -/
def isBlank (text : String) : Bool :=
  text.data.all Char.isWhitespace

/-- The loop body of the result listener (App.tsx lines 111-118): one pass
over the batch accumulating (finalTranscript, interimTranscript). -/
def segmentStep (acc : String × String) (seg : Segment) : String × String :=
  if seg.isFinal then (acc.1 ++ seg.transcript, acc.2)
  else (acc.1, acc.2 ++ seg.transcript)

/-- The for loop of the result listener over the segments of the event
from resultIndex onward, starting from empty accumulators. -/
def processSegments (batch : List Segment) : String × String :=
  batch.foldl segmentStep ("", "")

/-- The result event listener (App.tsx lines 107-126).  The batch is the
list of result segments from event.resultIndex to the end.  JavaScript
truthiness of finalTranscript is nonemptiness. -/
def onResult (s : AppState) (batch : List Segment) : AppState :=
  let finalTranscript := (processSegments batch).1
  let interimTranscript := (processSegments batch).2
  if finalTranscript ≠ "" then
    { s with originalText := s.originalText ++ finalTranscript, interimText := "" }
  else
    { s with interimText := interimTranscript }

/-- The error event listener (App.tsx lines 128-131). -/
def onRecognitionError (s : AppState) (msg : String) : AppState :=
  { s with error := "Speech recognition error: " ++ msg, isRecording := false }

/-- The end event listener (App.tsx lines 133-136). -/
def onRecognitionEnd (s : AppState) : AppState :=
  { s with isRecording := false, interimText := "" }

/-- The setup effect (App.tsx lines 97-147): when the platform offers a
speech-recognition capability, create and configure the session object;
otherwise set the diagnostic.  The supported flag models
(SpeechRecognition in window or webkitSpeechRecognition in window). -/
def setupRecognition (supported : Bool) (s : AppState) : AppState :=
  if supported then
    let config : RecognitionConfig :=
      { continuous := true, interimResults := true,
        lang := speechLangOrDefault s.inputLanguage "th-TH" }
    { s with recognition := some config }
  else
    { s with error := "Speech recognition is not supported in this browser." }

/-- startRecording (App.tsx lines 154-160).  The Bool of the result
records whether recognition.start() was invoked on the platform. -/
def startRecording (s : AppState) : AppState × Bool :=
  match s.recognition with
  | some _ =>
      if s.isRecording then (s, false)
      else ({ s with error := "", isRecording := true }, true)
  | none => (s, false)

/-- stopRecording (App.tsx lines 162-166).  No state slot changes here;
the Bool records whether recognition.stop() was invoked. -/
def stopRecording (s : AppState) : AppState × Bool :=
  match s.recognition with
  | some _ => (s, s.isRecording)
  | none => (s, false)

/-- clearText (App.tsx lines 168-175). -/
def clearText (s : AppState) : AppState :=
  { s with originalText := "", translatedText := "", agentReply := "",
           agentReplyTranslated := "", interimText := "", error := "" }

/-- The outcome of one translation round trip as the code can observe it:
the fetch promise rejects (networkFailure, also covering a json parse
rejection), the transport status is not ok (App.tsx line 189), or a
parsed payload carrying responseStatus and responseData.translatedText. -/
inductive FetchOutcome where
  | networkFailure
  | transportNotOk
  | payload (responseStatus : Int) (translatedText : String)
deriving DecidableEq, Repr

/-- Whether an outcome takes a throwing path through the try block:
rejection, non-ok transport, or a payload responseStatus other than 200
(App.tsx lines 189-199). -/
def FetchOutcome.isFailure : FetchOutcome → Bool
  | .networkFailure => true
  | .transportNotOk => true
  | .payload st _ => st ≠ 200

/-- A translation request as issued at App.tsx lines 185-187 and 216-218:
the q parameter (raw text; URI encoding not modelled) and the langpair
parameter. -/
structure TranslateRequest where
  q : String
  langpair : String
deriving DecidableEq, Repr

/-- translateText (App.tsx lines 177-206): blank text short-circuits;
otherwise set the busy flag, clear the diagnostic, issue the request with
langpair inputLanguage|outputLanguage, store the translated text on a 200
payload, set the diagnostic on any failure, and clear the busy flag in
the finally block. -/
def translateText (s : AppState) (outcome : FetchOutcome) :
    AppState × Option TranslateRequest :=
  if isBlank s.originalText then (s, none)
  else
    let s1 := { s with isTranslating := true, error := "" }
    let req : TranslateRequest :=
      { q := s.originalText,
        langpair := s.inputLanguage ++ "|" ++ s.outputLanguage }
    let s2 :=
      match outcome with
      | .networkFailure =>
          { s1 with error := "Translation failed. Please try again." }
      | .transportNotOk =>
          { s1 with error := "Translation failed. Please try again." }
      | .payload st t =>
          if st = 200 then { s1 with translatedText := t }
          else { s1 with error := "Translation failed. Please try again." }
    ({ s2 with isTranslating := false }, some req)

/-- translateAgentReply (App.tsx lines 208-237): as translateText but on
agentReply, with the language pair swapped to outputLanguage|inputLanguage,
writing agentReplyTranslated, its own busy flag, and its own diagnostic. -/
def translateAgentReply (s : AppState) (outcome : FetchOutcome) :
    AppState × Option TranslateRequest :=
  if isBlank s.agentReply then (s, none)
  else
    let s1 := { s with isTranslatingReply := true, error := "" }
    let req : TranslateRequest :=
      { q := s.agentReply,
        langpair := s.outputLanguage ++ "|" ++ s.inputLanguage }
    let s2 :=
      match outcome with
      | .networkFailure =>
          { s1 with error := "Agent reply translation failed. Please try again." }
      | .transportNotOk =>
          { s1 with error := "Agent reply translation failed. Please try again." }
      | .payload st t =>
          if st = 200 then { s1 with agentReplyTranslated := t }
          else { s1 with error := "Agent reply translation failed. Please try again." }
    ({ s2 with isTranslatingReply := false }, some req)

/-- The agentReply watcher effect (App.tsx lines 275-281): a non-blank
reply triggers translateAgentReply, a blank one clears the translated
reply slot without any request. -/
def agentReplyWatcher (s : AppState) (outcome : FetchOutcome) :
    AppState × Option TranslateRequest :=
  if isBlank s.agentReply then ({ s with agentReplyTranslated := "" }, none)
  else translateAgentReply s outcome

/-- The originalText watcher effect (App.tsx lines 269-273): a non-blank
transcript triggers translateText. -/
def originalTextWatcher (s : AppState) (outcome : FetchOutcome) :
    AppState × Option TranslateRequest :=
  if isBlank s.originalText then (s, none)
  else translateText s outcome

/-- A speech-synthesis utterance as configured at App.tsx lines 244-247
(rate and pitch are presentation constants and not modelled). -/
structure Utterance where
  text : String
  lang : String
deriving DecidableEq, Repr

/-- The platform speechSynthesis engine state: its utterance queue, the
head being the utterance currently in progress. -/
structure SynthState where
  queue : List Utterance
deriving DecidableEq, Repr

/-- window.speechSynthesis.cancel() : drops every queued utterance. -/
def synthCancel (_ : SynthState) : SynthState := ⟨[]⟩

/-- window.speechSynthesis.speak(u) : enqueues the utterance. -/
def synthSpeak (st : SynthState) (u : Utterance) : SynthState :=
  ⟨st.queue ++ [u]⟩

/-- speakText (App.tsx lines 239-260): on a supported platform, cancel
any ongoing speech and start the new utterance; the view state is not
touched synchronously (the speaking flag moves only in the utterance
callbacks below).  On an unsupported platform, set the diagnostic. -/
def speakText (synthSupported : Bool) (s : AppState) (text lang : String)
    (synth : SynthState) : AppState × SynthState :=
  if synthSupported then
    (s, synthSpeak (synthCancel synth)
          { text := text, lang := speechLangOrDefault lang "en-US" })
  else
    ({ s with error := "Text-to-speech is not supported in this browser." },
     synth)

/-- utterance.onstart (App.tsx line 249). -/
def utteranceOnStart (s : AppState) : AppState := { s with isSpeaking := true }

/-- utterance.onend (App.tsx line 250). -/
def utteranceOnEnd (s : AppState) : AppState := { s with isSpeaking := false }

/-- utterance.onerror (App.tsx lines 251-254). -/
def utteranceOnError (s : AppState) : AppState :=
  { s with isSpeaking := false,
           error := "Text-to-speech failed. Please try again." }

/-! Specification-side descriptions, used to compare the handlers against
the wording of the spec. -/

/-- The concatenation, in delivery order, of the transcripts of the
segments marked final in one batch (the wording of the spec for what one
result event may append). -/
def finalsConcat : List Segment → String
  | [] => ""
  | seg :: rest =>
      if seg.isFinal then seg.transcript ++ finalsConcat rest
      else finalsConcat rest

/-- The concatenation, in delivery order, of the transcripts of the
segments not marked final in one batch. -/
def interimConcat : List Segment → String
  | [] => ""
  | seg :: rest =>
      if seg.isFinal then interimConcat rest
      else seg.transcript ++ interimConcat rest

/-- The concatenation of the final transcripts of a whole sequence of
batches, in delivery order. -/
def finalsOfBatches : List (List Segment) → String
  | [] => ""
  | b :: rest => finalsConcat b ++ finalsOfBatches rest

/-! Helper lemmas about the result-listener loop. -/

theorem processSegments_go (batch : List Segment) (f i : String) :
    batch.foldl segmentStep (f, i) =
      (f ++ finalsConcat batch, i ++ interimConcat batch) := by
  induction batch generalizing f i with
  | nil => simp [finalsConcat, interimConcat]
  | cons seg rest ih =>
      by_cases h : seg.isFinal = true
      · simp [segmentStep, h, ih, finalsConcat, interimConcat,
              String.append_assoc]
      · simp [segmentStep, h, ih, finalsConcat, interimConcat,
              String.append_assoc]

theorem processSegments_eq (batch : List Segment) :
    processSegments batch = (finalsConcat batch, interimConcat batch) := by
  simp [processSegments, processSegments_go]

theorem onResult_originalText (s : AppState) (batch : List Segment) :
    (onResult s batch).originalText = s.originalText ++ finalsConcat batch := by
  by_cases h : finalsConcat batch = ""
  · simp [onResult, processSegments_eq, h]
  · simp [onResult, processSegments_eq, h]

/-! Claim theorems. -/

/-- Claim C1: for every sequence of recognition result batches delivered to
the result listener within one session, originalText after processing
equals its prior value concatenated with the transcripts of all segments
marked final, taken in delivery order; no result event shortens or
reorders it. -/
theorem result_events_append_finals (s : AppState)
    (batches : List (List Segment)) :
    (batches.foldl onResult s).originalText
      = s.originalText ++ finalsOfBatches batches := by
  induction batches generalizing s with
  | nil => simp [finalsOfBatches]
  | cons b rest ih =>
      simp [finalsOfBatches, ih, onResult_originalText, String.append_assoc]

/-- Claim C2 counterexample: a batch holding a non-final segment with text
and a final segment whose transcript is empty contains a segment marked
final, yet the listener takes the interim branch (the concatenated final
text is empty, hence falsy) and leaves interimText nonempty. -/
theorem final_segment_interim_counterexample :
    (([⟨"x", false⟩, ⟨"", true⟩] : List Segment).any Segment.isFinal = true)
    ∧ ¬ ((onResult initialState ([⟨"x", false⟩, ⟨"", true⟩] : List Segment)).interimText
          = "") := by
  constructor
  · decide
  · decide

/-- Claim C2 as amended: for every batch whose concatenated final-segment
transcript is nonempty, interimText is the empty string immediately after
the result listener processes that batch. -/
theorem interim_cleared_on_final_text (s : AppState) (batch : List Segment)
    (h : finalsConcat batch ≠ "") :
    (onResult s batch).interimText = "" := by
  simp [onResult, processSegments_eq, h]

/-- Witness for the amended C2 at a concrete batch. -/
theorem interim_cleared_on_final_text_witness :
    (onResult initialState ([⟨"hello", true⟩] : List Segment)).interimText = "" :=
  interim_cleared_on_final_text initialState ([⟨"hello", true⟩] : List Segment)
    (by decide)

/-- Claim C3: on empty or whitespace-only source text, translateText
issues no request and leaves the state unchanged (busy flag included),
whatever the rest of the state holds; likewise translateAgentReply on an
empty or whitespace-only reply. -/
theorem blank_text_translate_noop (s : AppState) (outcome : FetchOutcome) :
    (isBlank s.originalText = true → translateText s outcome = (s, none))
    ∧ (isBlank s.agentReply = true → translateAgentReply s outcome = (s, none)) := by
  constructor
  · intro h1
    simp [translateText, h1]
  · intro h2
    simp [translateAgentReply, h2]

/-- Witness for C3: a whitespace-only source text next to a non-blank
reply, and a whitespace-only reply next to a non-blank source text. -/
theorem blank_text_translate_noop_witness :
    translateText { initialState with originalText := "   ", agentReply := "Hello" }
        FetchOutcome.networkFailure
      = ({ initialState with originalText := "   ", agentReply := "Hello" }, none)
    ∧ translateAgentReply { initialState with originalText := "hi", agentReply := " " }
        FetchOutcome.networkFailure
      = ({ initialState with originalText := "hi", agentReply := " " }, none) :=
  ⟨(blank_text_translate_noop
      { initialState with originalText := "   ", agentReply := "Hello" }
      FetchOutcome.networkFailure).1 (by decide),
   (blank_text_translate_noop
      { initialState with originalText := "hi", agentReply := " " }
      FetchOutcome.networkFailure).2 (by decide)⟩

/-- Claim C4: after any invocation of translateText on non-blank text, or
of translateAgentReply on a non-blank reply, whatever the outcome of the
round trip, the corresponding busy flag is false. -/
theorem busy_flag_cleared (s : AppState) (outcome : FetchOutcome) :
    (isBlank s.originalText = false →
      (translateText s outcome).1.isTranslating = false)
    ∧ (isBlank s.agentReply = false →
      (translateAgentReply s outcome).1.isTranslatingReply = false) := by
  constructor
  · intro h
    cases outcome with
    | networkFailure => simp [translateText, h]
    | transportNotOk => simp [translateText, h]
    | payload st t =>
        by_cases hst : st = 200 <;> simp [translateText, h, hst]
  · intro h
    cases outcome with
    | networkFailure => simp [translateAgentReply, h]
    | transportNotOk => simp [translateAgentReply, h]
    | payload st t =>
        by_cases hst : st = 200 <;> simp [translateAgentReply, h, hst]

/-- Witness for C4 at concrete non-blank inputs and a failing transport. -/
theorem busy_flag_cleared_witness :
    (translateText { initialState with originalText := "hi" }
        FetchOutcome.transportNotOk).1.isTranslating = false
    ∧ (translateAgentReply { initialState with agentReply := "yo" }
        FetchOutcome.transportNotOk).1.isTranslatingReply = false :=
  ⟨(busy_flag_cleared { initialState with originalText := "hi" }
      FetchOutcome.transportNotOk).1 (by decide),
   (busy_flag_cleared { initialState with agentReply := "yo" }
      FetchOutcome.transportNotOk).2 (by decide)⟩

/-- Claim C5: for a non-blank transcript and every language pair, any
failed forward translation attempt (rejection, non-ok transport, or
payload responseStatus other than 200) sets the diagnostic to
"Translation failed. Please try again." and leaves translatedText
exactly as it was; when the input language is th and the output language
en the request carries the pair th|en, and a successful attempt stores
the returned text in translatedText. -/
theorem translate_failure_and_success (s : AppState) (outcome : FetchOutcome)
    (t : String) (hnb : isBlank s.originalText = false) :
    (outcome.isFailure = true →
      (translateText s outcome).1.error = "Translation failed. Please try again."
      ∧ (translateText s outcome).1.translatedText = s.translatedText)
    ∧ (s.inputLanguage = "th" → s.outputLanguage = "en" →
        (translateText s (.payload 200 t)).2
          = some { q := s.originalText, langpair := "th|en" })
    ∧ (translateText s (.payload 200 t)).1.translatedText = t := by
  refine ⟨?_, ?_, ?_⟩
  · intro hfail
    cases outcome with
    | networkFailure => simp [translateText, hnb]
    | transportNotOk => simp [translateText, hnb]
    | payload st u =>
        have hst : ¬ (st = 200) := by
          simpa [FetchOutcome.isFailure] using hfail
        simp [translateText, hnb, hst]
  · intro hin hout
    simp [translateText, hnb, hin, hout]
  · simp [translateText, hnb]

/-- Witness for C5: the สวัสดี scenario of the spec on a network failure
and a 200 payload, plus a failing attempt at the fr/de language pair
keeping its prior translation. -/
theorem translate_failure_and_success_witness :
    (translateText { initialState with originalText := "สวัสดี" }
        FetchOutcome.networkFailure).1.error
      = "Translation failed. Please try again."
    ∧ (translateText { initialState with originalText := "สวัสดี" }
        FetchOutcome.networkFailure).1.translatedText
      = ({ initialState with originalText := "สวัสดี" } : AppState).translatedText
    ∧ (translateText
        { initialState with originalText := "Bonjour", inputLanguage := "fr",
                            outputLanguage := "de", translatedText := "prior" }
        FetchOutcome.transportNotOk).1.error
      = "Translation failed. Please try again."
    ∧ (translateText
        { initialState with originalText := "Bonjour", inputLanguage := "fr",
                            outputLanguage := "de", translatedText := "prior" }
        FetchOutcome.transportNotOk).1.translatedText = "prior"
    ∧ (translateText { initialState with originalText := "สวัสดี" }
        (.payload 200 "Hello")).2
      = some { q := "สวัสดี", langpair := "th|en" }
    ∧ (translateText { initialState with originalText := "สวัสดี" }
        (.payload 200 "Hello")).1.translatedText = "Hello" := by
  have h := translate_failure_and_success
    { initialState with originalText := "สวัสดี" }
    FetchOutcome.networkFailure "Hello" (by decide)
  have hfr := translate_failure_and_success
    { initialState with originalText := "Bonjour", inputLanguage := "fr",
                        outputLanguage := "de", translatedText := "prior" }
    FetchOutcome.transportNotOk "Hello" (by decide)
  exact ⟨(h.1 rfl).1, (h.1 rfl).2, (hfr.1 rfl).1, (hfr.1 rfl).2,
         h.2.1 rfl rfl, h.2.2⟩

/-- Claim C6: whenever the agent reply is blank, the watcher clears the
reply-translated slot in the same update, issues no request, and changes
nothing else. -/
theorem blank_reply_clears_translation (s : AppState) (outcome : FetchOutcome)
    (h : isBlank s.agentReply = true) :
    agentReplyWatcher s outcome = ({ s with agentReplyTranslated := "" }, none) := by
  simp [agentReplyWatcher, h]

/-- Witness for C6 with a whitespace-only reply and a stale translation. -/
theorem blank_reply_clears_translation_witness :
    agentReplyWatcher
        { initialState with agentReply := " ", agentReplyTranslated := "old" }
        FetchOutcome.networkFailure
      = ({ initialState with agentReply := " ", agentReplyTranslated := "" }, none) :=
  blank_reply_clears_translation
    { initialState with agentReply := " ", agentReplyTranslated := "old" }
    FetchOutcome.networkFailure (by decide)

/-- Claim C7 counterexample: speakText does not reset the speaking flag
synchronously.  Called while the flag is true (an utterance in progress),
the flag is still true when speakText returns, before any callback of the
new utterance fires: the controller relies on the callbacks, contrary to
the claim. -/
theorem speak_no_sync_reset_counterexample :
    ¬ ((speakText true { initialState with isSpeaking := true } "T2" "en"
          ⟨[{ text := "T1", lang := "en-US" }]⟩).1.isSpeaking = false) := by
  decide

/-- Claim C7 as amended: every speakText call on a supported platform
first cancels all queued utterances and then enqueues only the new one,
so two calls in quick succession for T1 then T2 leave exactly the T2
utterance in the engine; the view state is untouched synchronously, the
speaking flag being moved by the utterance callbacks, and once T2 has
started and ended the flag is false. -/
theorem speak_twice_leaves_second (s : AppState) (t1 t2 l : String)
    (synth : SynthState) :
    (speakText true s t1 l synth).1 = s
    ∧ (speakText true s t1 l synth).2.queue
        = [{ text := t1, lang := speechLangOrDefault l "en-US" }]
    ∧ (speakText true (speakText true s t1 l synth).1 t2 l
          (speakText true s t1 l synth).2).2.queue
        = [{ text := t2, lang := speechLangOrDefault l "en-US" }]
    ∧ (utteranceOnEnd (utteranceOnStart
          (speakText true (speakText true s t1 l synth).1 t2 l
            (speakText true s t1 l synth).2).1)).isSpeaking = false := by
  refine ⟨rfl, rfl, rfl, rfl⟩

/-- Claim C8: for a non-blank reply, the reply translation request swaps
the language pair to outputLanguage|inputLanguage, and a successful
attempt stores the returned text in agentReplyTranslated. -/
theorem reply_translation_swaps_languages (s : AppState) (outcome : FetchOutcome)
    (t : String) (h : isBlank s.agentReply = false) :
    (translateAgentReply s outcome).2
        = some { q := s.agentReply,
                 langpair := s.outputLanguage ++ "|" ++ s.inputLanguage }
    ∧ (translateAgentReply s (.payload 200 t)).1.agentReplyTranslated = t := by
  constructor
  · cases outcome with
    | networkFailure => simp [translateAgentReply, h]
    | transportNotOk => simp [translateAgentReply, h]
    | payload st u =>
        by_cases hst : st = 200 <;> simp [translateAgentReply, h, hst]
  · simp [translateAgentReply, h]

/-- Witness for C8: the Hello scenario of the spec (reply "Hello", input
th, output en, langpair en|th). -/
theorem reply_translation_swaps_languages_witness :
    (translateAgentReply { initialState with agentReply := "Hello" }
        FetchOutcome.networkFailure).2
      = some { q := "Hello", langpair := "en|th" }
    ∧ (translateAgentReply { initialState with agentReply := "Hello" }
        (.payload 200 "สวัสดี")).1.agentReplyTranslated = "สวัสดี" :=
  reply_translation_swaps_languages { initialState with agentReply := "Hello" }
    FetchOutcome.networkFailure "สวัสดี" (by decide)

/-- Claim C10: clearText empties exactly the six text slots and leaves
the recording status, both busy flags, the speaking flag, both language
selections and the recognition session untouched. -/
theorem clearText_clears_exactly_text_fields (s : AppState) :
    (clearText s).originalText = ""
    ∧ (clearText s).translatedText = ""
    ∧ (clearText s).agentReply = ""
    ∧ (clearText s).agentReplyTranslated = ""
    ∧ (clearText s).interimText = ""
    ∧ (clearText s).error = ""
    ∧ (clearText s).isRecording = s.isRecording
    ∧ (clearText s).isTranslating = s.isTranslating
    ∧ (clearText s).isTranslatingReply = s.isTranslatingReply
    ∧ (clearText s).isSpeaking = s.isSpeaking
    ∧ (clearText s).inputLanguage = s.inputLanguage
    ∧ (clearText s).outputLanguage = s.outputLanguage
    ∧ (clearText s).recognition = s.recognition := by
  refine ⟨rfl, rfl, rfl, rfl, rfl, rfl, rfl, rfl, rfl, rfl, rfl, rfl, rfl⟩

/-- A user or platform event that can reach the App state while the tab
stays open, the outcome of any network round trip made explicit.
recResult, recErrorEvt and recEndEvt are the recognition listeners;
setInput also reruns the setup effect, whose dependency list is the input
language; speak carries the synthesis-support flag of the platform. -/
inductive Event where
  | recResult (batch : List Segment)
  | recErrorEvt (msg : String)
  | recEndEvt
  | startRec
  | stopRec
  | clear
  | fwdTranslate (outcome : FetchOutcome)
  | replyWatch (outcome : FetchOutcome)
  | setReply (text : String)
  | setOutput (lang : String)
  | setInput (lang : String)
  | speak (synthSupported : Bool) (text lang : String)
  | synthStart
  | synthEnd
  | synthError

/-- One step of the whole App state machine: dispatch an event to the
handler embedded above, keeping only the view-state component.
recSupported is the (fixed) recognition capability of the platform. -/
def appStep (recSupported : Bool) (s : AppState) (e : Event) : AppState :=
  match e with
  | .recResult batch => onResult s batch
  | .recErrorEvt msg => onRecognitionError s msg
  | .recEndEvt => onRecognitionEnd s
  | .startRec => (startRecording s).1
  | .stopRec => (stopRecording s).1
  | .clear => clearText s
  | .fwdTranslate outcome => (originalTextWatcher s outcome).1
  | .replyWatch outcome => (agentReplyWatcher s outcome).1
  | .setReply text => { s with agentReply := text }
  | .setOutput lang => { s with outputLanguage := lang }
  | .setInput lang => setupRecognition recSupported { s with inputLanguage := lang }
  | .speak sup text lang => (speakText sup s text lang ⟨[]⟩).1
  | .synthStart => utteranceOnStart s
  | .synthEnd => utteranceOnEnd s
  | .synthError => utteranceOnError s

theorem translateText_keeps_recognition (s : AppState) (outcome : FetchOutcome) :
    (translateText s outcome).1.recognition = s.recognition := by
  by_cases hb : isBlank s.originalText
  · simp [translateText, hb]
  · cases outcome with
    | networkFailure => simp [translateText, hb]
    | transportNotOk => simp [translateText, hb]
    | payload st t => by_cases hst : st = 200 <;> simp [translateText, hb, hst]

theorem translateAgentReply_keeps_recognition (s : AppState)
    (outcome : FetchOutcome) :
    (translateAgentReply s outcome).1.recognition = s.recognition := by
  by_cases hb : isBlank s.agentReply
  · simp [translateAgentReply, hb]
  · cases outcome with
    | networkFailure => simp [translateAgentReply, hb]
    | transportNotOk => simp [translateAgentReply, hb]
    | payload st t => by_cases hst : st = 200 <;> simp [translateAgentReply, hb, hst]

/-- No event on a platform without recognition capability ever creates a
recognition session: every step preserves the recognition field. -/
theorem appStep_keeps_recognition (s : AppState) (e : Event) :
    (appStep false s e).recognition = s.recognition := by
  cases e with
  | recResult batch =>
      simp only [appStep, onResult]
      split <;> rfl
  | recErrorEvt msg => rfl
  | recEndEvt => rfl
  | startRec =>
      simp only [appStep, startRecording]
      cases hrec : s.recognition with
      | none => simp [hrec]
      | some c =>
          by_cases hr : s.isRecording = true <;> simp [hr, hrec]
  | stopRec =>
      simp only [appStep, stopRecording]
      cases hrec : s.recognition <;> simp [hrec]
  | clear => rfl
  | fwdTranslate outcome =>
      simp only [appStep, originalTextWatcher]
      split
      · rfl
      · exact translateText_keeps_recognition s outcome
  | replyWatch outcome =>
      simp only [appStep, agentReplyWatcher]
      split
      · rfl
      · exact translateAgentReply_keeps_recognition s outcome
  | setReply text => rfl
  | setOutput lang => rfl
  | setInput lang => rfl
  | speak sup text lang =>
      simp only [appStep, speakText]
      split <;> rfl
  | synthStart => rfl
  | synthEnd => rfl
  | synthError => rfl

theorem foldl_appStep_keeps_recognition (s : AppState) (events : List Event) :
    (events.foldl (appStep false) s).recognition = s.recognition := by
  induction events generalizing s with
  | nil => rfl
  | cons e rest ih =>
      rw [List.foldl_cons, ih, appStep_keeps_recognition]

/-- Claim C9: on a platform without speech-recognition capability, the
setup effect sets the diagnostic to exactly
"Speech recognition is not supported in this browser." and creates no
session object; after any sequence of further events the session
reference is still absent, so the start control stays disabled
(recognition = none) and startRecording is inert: it changes no state
and issues no platform start. -/
theorem recognition_unsupported_inert :
    (setupRecognition false initialState).error
      = "Speech recognition is not supported in this browser."
    ∧ ∀ events : List Event,
        (events.foldl (appStep false)
            (setupRecognition false initialState)).recognition = none
        ∧ startRecording
              (events.foldl (appStep false) (setupRecognition false initialState))
            = (events.foldl (appStep false) (setupRecognition false initialState),
               false) := by
  constructor
  · rfl
  · intro events
    have h0 : (events.foldl (appStep false)
        (setupRecognition false initialState)).recognition = none := by
      rw [foldl_appStep_keeps_recognition]; rfl
    refine ⟨h0, ?_⟩
    simp [startRecording, h0]
